import Mathlib

/-!
# FnordMetric server: backend selection, startup, and the storage core

A shallow embedding of `src/fnordmetric-server.cc` (`makeMetricService`,
`printUsage`, `main`) and of the storage core it drives, as the spec
describes it.

Effectful code is embedded in a small trace-and-exception monad `Run`: a
computation yields the list of observable events it performed and either a
value or the `fnord::Exception` it raised.  The collaborators that live in
the `fnord-base` / `fnord-http` libraries (flag parser, file utilities, HTTP
and StatsD servers, event loop) are not part of the sources at hand; their
answers are supplied by a `World` record, so every theorem quantifies over
all possible behaviours of those collaborators.
-/

set_option autoImplicit false

namespace FnordMetric

/-! ## Exceptions -/

/-- A `fnord::Exception`: the type name set by `RAISE` and the message. -/
structure Exception where
  typeName : String
  message : String
  deriving DecidableEq, Repr

/-- Modelled from the spec: the exception type constant `kUsageError` is
declared in `fnord-base/exception.h`, which is not among the sources; it is
the spec's configuration-error kind (the one surfaced with usage help). -/
def kUsageError : String := "UsageError"

/-- Modelled from the spec: the exception type constant `kIOError` is
declared in `fnord-base/exception.h`, which is not among the sources; it is
the spec's `IOError` kind. -/
def kIOError : String := "IOError"

/-! ## Observable events and the world -/

/-- A `TaskScheduler*`: the identity of the scheduler object pointed to. -/
structure TaskScheduler where
  handle : Nat
  deriving DecidableEq, Repr

/-- Observable actions performed by the server binary, in program order. -/
inductive Event where
  | logInfo (component : String) (message : String)
  | logError (component : String) (e : Exception) (message : String)
  | fileExists (path : String)
  | fileIsDirectory (path : String)
  | openInMemoryBackend
  | openDiskBackend (path : String) (scheduler : TaskScheduler)
  | printUsage
  | httpListen (port : Int)
  | statsdListen (port : Int)
  | evloopRun
  deriving DecidableEq, Repr

/-- Events that start a network listener or the event loop. -/
def Event.startsListener : Event → Bool
  | .httpListen _ => true
  | .statsdListen _ => true
  | .evloopRun => true
  | _ => false

/-- Events that are a check against the filesystem. -/
def Event.isFilesystemCheck : Event → Bool
  | .fileExists _ => true
  | .fileIsDirectory _ => true
  | .openDiskBackend _ _ => true
  | _ => false

/-- One observation, spec §3: key, value, labels in input order, timestamp.
The `double` value is carried, never computed with; it is represented by an
exact rational. -/
structure Sample where
  key : String
  value : ℚ
  labels : List (String × String)
  timestamp : Nat
  deriving DecidableEq

/-- Answers of the collaborators outside the sources at hand: the parsed
command line (`env()->flags()`), the filesystem (`fnord::FileUtil`), the two
network servers and the event loop.  Calls that can throw answer with
`Except`. -/
structure World where
  /-- Result of `flags()->parseArgv(argc, argv)`. -/
  parseArgv : Except Exception Unit
  /-- Result of `flags()->isSet(name)` after parsing. -/
  flagIsSet : String → Bool
  /-- Result of `flags()->getString(name)` after parsing. -/
  flagGetString : String → Except Exception String
  /-- Result of `flags()->getInt(name)` after parsing. -/
  flagGetInt : String → Except Exception Int
  /-- Result of `FileUtil::exists(path)`. -/
  fileExists : String → Bool
  /-- Result of `FileUtil::isDirectory(path)`. -/
  fileIsDirectory : String → Bool
  /-- Result of `HTTPServer::listen(port)`. -/
  httpListen : Int → Except Exception Unit
  /-- Result of `StatsdServer::listen(port)`. -/
  statsdListen : Int → Except Exception Unit
  /-- Result of `EventLoop::run()` once it comes back. -/
  evloopRun : Except Exception Unit
  /-- Outcome of opening the disk backend on a directory for a scheduler:
  the series recovered from the logs under the directory, or the exception
  of a failed open (directory not writable, unreadable log, ...). -/
  openDiskBackend : String → TaskScheduler →
    Except Exception (List (String × List Sample))

/-! ## The trace-and-exception monad -/

/-- Outcome of running a piece of the program: the events it performed and
its result, an exception meaning that the exception propagated out.  The
exceptions are the `fnord::Exception`s, the only ones the sources raise and
catch. -/
structure Run (α : Type) where
  trace : List Event
  result : Except Exception α

namespace Run

/-- A computation that does nothing and returns `a`. -/
def ret {α : Type} (a : α) : Run α := ⟨[], .ok a⟩

/-- Sequencing: the continuation runs only if the first part did not raise. -/
def andThen {α β : Type} (m : Run α) (f : α → Run β) : Run β :=
  match m.result with
  | .ok a => ⟨m.trace ++ (f a).trace, (f a).result⟩
  | .error e => ⟨m.trace, .error e⟩

instance : Monad Run where
  pure := ret
  bind := andThen

/-- Perform one observable event. -/
def emit (ev : Event) : Run Unit := ⟨[ev], .ok ()⟩

/-- The `RAISE` / `RAISEF` macros: throw a `fnord::Exception`. -/
def raise {α : Type} (typeName message : String) : Run α :=
  ⟨[], .error ⟨typeName, message⟩⟩

/-- Perform one observable event whose outcome the world decides. -/
def call {α : Type} (ev : Event) (answer : Except Exception α) : Run α :=
  ⟨[ev], answer⟩

/-- A call without observable event whose outcome the world decides. -/
def ask {α : Type} (answer : Except Exception α) : Run α := ⟨[], answer⟩

/-- The `try { body } catch (const fnord::Exception& e) { handler }`
statement. -/
def tryCatch {α : Type} (body : Run α) (handler : Exception → Run α) : Run α :=
  match body.result with
  | .ok a => ⟨body.trace, .ok a⟩
  | .error e => ⟨body.trace ++ (handler e).trace, (handler e).result⟩

end Run

/-! ## Samples and the metric service -/

/-- The fixed set of backend variants, with the parameters each was opened
with. -/
inductive BackendKind where
  | inMemory
  | disk (datadir : String) (scheduler : TaskScheduler)
  deriving DecidableEq, Repr

/-- The `MetricService` handle: which backend it owns and the backend's
repository, a mapping from metric key to the key's series (spec §3). -/
structure MetricService where
  backend : BackendKind
  repository : List (String × List Sample)
  deriving DecidableEq

namespace MetricService

/-- Modelled from the spec: `MetricService::newWithInMemoryBackend` is
declared in `fnord-metricdb/metricservice.h`, which is not among the sources.
Spec §4.2: `newWithInMemoryBackend() → MetricService`; it cannot fail and
starts with no series. -/
def newWithInMemoryBackend : Run MetricService :=
  Run.call Event.openInMemoryBackend (.ok ⟨BackendKind.inMemory, []⟩)

/-- Modelled from the spec: `MetricService::newWithDiskBackend` is declared
in `fnord-metricdb/metricservice.h`, which is not among the sources.
Spec §4.2: `newWithDiskBackend(path, scheduler) → MetricService | fails with
ConfigError/IOError`.  Whether the open succeeds is the world's answer, so
every failure the spec allows (path missing, not a directory, not writable,
log not recoverable) is covered; on success the service is bound to that
directory and scheduler and holds the series recovered from the directory. -/
def newWithDiskBackend (w : World) (path : String) (scheduler : TaskScheduler) :
    Run MetricService :=
  Run.call (Event.openDiskBackend path scheduler)
    (match w.openDiskBackend path scheduler with
    | .ok repository => .ok ⟨BackendKind.disk path scheduler, repository⟩
    | .error e => .error e)

end MetricService

/-! ## `fnordmetric-server.cc` -/

/-- The function `fnord::logInfo(component, message)`. -/
def logInfo (component message : String) : Run Unit :=
  Run.emit (Event.logInfo component message)

/-- The static function `makeMetricService(backend_type, backend_scheduler)`. -/
def makeMetricService (w : World) (backend_type : String)
    (backend_scheduler : TaskScheduler) : Run MetricService :=
  /- open inmemory backend -/
  if backend_type = "inmemory" then do
    logInfo "fnordmetric-server" "Opening new inmemory backend"
    MetricService.newWithInMemoryBackend
  /- open disk backend -/
  else if backend_type = "disk" then do
    if !w.flagIsSet "datadir" then
      Run.raise kUsageError
        "the --datadir flag must be set when using the disk backend"
    else do
      let datadir ← Run.ask (w.flagGetString "datadir")
      let datadir_exists ← Run.call (Event.fileExists datadir) (.ok (w.fileExists datadir))
      if !datadir_exists then
        Run.raise kIOError ("File " ++ datadir ++ " does not exist")
      else do
        let datadir_is_directory ←
          Run.call (Event.fileIsDirectory datadir) (.ok (w.fileIsDirectory datadir))
        if !datadir_is_directory then
          Run.raise kIOError ("File " ++ datadir ++ " is not a directory")
        else do
          logInfo "fnordmetric-server" ("Opening disk backend at " ++ datadir)
          MetricService.newWithDiskBackend w datadir backend_scheduler
  else
    Run.raise kUsageError ("unknown backend type: " ++ backend_type)

/-- The static function `printUsage()`: the usage text goes to stderr. -/
def printUsage : Run Unit := Run.emit Event.printUsage

/-- The `fnord::thread::ThreadPool server_pool` local of `main`. -/
def server_pool : TaskScheduler := ⟨0⟩

/-- The `fnord::thread::ThreadPool worker_pool` local of `main`. -/
def worker_pool : TaskScheduler := ⟨1⟩

/-- The body of the `try` block of `main`.  Constructing the router, the two
servers and the servlet, adding the routes and registering the `onSample`
callback perform no event before the event loop runs. -/
def mainTryBody (w : World) : Run Unit := do
  /- setup MetricService -/
  let backend_type ← Run.ask (w.flagGetString "storage_backend")
  let _metric_service ← makeMetricService w backend_type server_pool
  /- start http server -/
  let http_port ← Run.ask (w.flagGetInt "http_port")
  logInfo "fnordmeric-server" ("Starting HTTP server on port " ++ toString http_port)
  Run.call (Event.httpListen http_port) (w.httpListen http_port)
  /- set up statsd server; start statsd server -/
  (if w.flagIsSet "statsd_port" then do
    let statsd_port ← Run.ask (w.flagGetInt "statsd_port")
    logInfo "fnordmetric-server"
      ("Starting StatsD server on port " ++ toString statsd_port)
    Run.call (Event.statsdListen statsd_port) (w.statsdListen statsd_port)
  else
    pure ())
  /- start event loop -/
  Run.call Event.evloopRun w.evloopRun

/-- The `catch (const fnord::Exception& e)` handler of `main`. -/
def mainCatch (e : Exception) : Run Int := do
  Run.emit (Event.logError "fnordmetric-server" e "FATAL ERROR")
  (if e.typeName = kUsageError then printUsage else pure ())
  pure 1

/-- The function `main`: the value is the exit status; an exception as
result means it left `main` uncaught.  `Application::init`, `logToStderr`,
the `defineFlag` calls and `setVerbose` perform no event; the flag
definitions show in the answers of the world's flag parser. -/
def main (w : World) : Run Int := do
  Run.ask w.parseArgv
  if w.flagIsSet "help" then do
    printUsage
    pure 0
  else
    Run.tryCatch (do mainTryBody w; pure 0) mainCatch

/-! ## The storage core behind `insertSample` and `query` -/

/-- A closed time range for queries. -/
structure TimeRange where
  start : Nat
  stop : Nat
  deriving DecidableEq, Repr

/-- Whether a timestamp falls in the range. -/
def TimeRange.covers (range : TimeRange) (t : Nat) : Bool :=
  decide (range.start ≤ t) && decide (t ≤ range.stop)

namespace Backend

/-- Modelled from the spec: the backend implementation is not among the
sources.  Spec §4.1, the effect of an insert that goes through: appends one
Sample to the Series for `key`, creating the Series if absent. -/
def appendSample : List (String × List Sample) → String → Sample →
    List (String × List Sample)
  | [], key, sample => [(key, [sample])]
  | (k, series) :: rest, key, sample =>
    if k = key then (k, series ++ [sample]) :: rest
    else (k, series) :: appendSample rest key sample

/-- Modelled from the spec: the backend implementation is not among the
sources.  Spec §4.1 `insert(key, sample) → void | fails with WriteError`:
`write` is the outcome of the backend's write (an error when the backend
rejects it, e.g. disk full); a rejected write stores nothing. -/
def insert (write : Except Exception Unit) (repository : List (String × List Sample))
    (key : String) (sample : Sample) :
    Except Exception (List (String × List Sample)) :=
  match write with
  | .ok _ => .ok (appendSample repository key sample)
  | .error e => .error e

/-- Modelled from the spec: the backend implementation is not among the
sources.  Spec §3: the repository maps a metric key to its Series; an unknown
key has no samples. -/
def series : List (String × List Sample) → String → List Sample
  | [], _ => []
  | (k, s) :: rest, key => if k = key then s else series rest key

/-- Modelled from the spec: the backend implementation is not among the
sources.  Spec §4.1 `query(key, time_range)`: all Samples for `key` whose
timestamp falls in `time_range`, in timestamp order; empty for an unknown
key. -/
def query (repository : List (String × List Sample)) (key : String)
    (range : TimeRange) : List Sample :=
  List.insertionSort (fun a b : Sample => a.timestamp ≤ b.timestamp)
    ((series repository key).filter (fun s => range.covers s.timestamp))

end Backend

namespace MetricService

/-- Modelled from the spec: `MetricService::insertSample` is declared in
`fnord-metricdb/metricservice.h`, which is not among the sources.  Spec §4.2:
constructs a Sample with the current timestamp (`now`) and forwards it to
`Backend.insert`; an error from the backend is logged, not propagated, and
the sample is dropped (spec §7). -/
def insertSample (svc : MetricService) (write : Except Exception Unit) (now : Nat)
    (key : String) (value : ℚ) (labels : List (String × String)) :
    Run MetricService :=
  match Backend.insert write svc.repository key ⟨key, value, labels, now⟩ with
  | .ok repository => Run.ret ⟨svc.backend, repository⟩
  | .error e => Run.call (Event.logError "metricservice" e "insert failed") (.ok svc)

/-- Modelled from the spec: `MetricService::query` is declared in
`fnord-metricdb/metricservice.h`, which is not among the sources.  Spec §4.2:
forwards to `Backend.query`. -/
def query (svc : MetricService) (key : String) (range : TimeRange) : List Sample :=
  Backend.query svc.repository key range

end MetricService

/-! ## Worlds used to exercise the theorems -/

/-- A command line `--storage_backend disk --datadir /var/fnordmetric` on a
machine where only `/var/fnordmetric` exists, as a directory, and where the
listeners and the event loop work. -/
def diskWorld : World where
  parseArgv := .ok ()
  flagIsSet := fun name => name = "datadir" || name = "storage_backend"
  flagGetString := fun name =>
    if name = "datadir" then .ok "/var/fnordmetric"
    else if name = "storage_backend" then .ok "disk"
    else .error ⟨"FlagError", "flag is not set: " ++ name⟩
  flagGetInt := fun name => if name = "http_port" then .ok 8080 else .ok 8125
  fileExists := fun path => path = "/var/fnordmetric"
  fileIsDirectory := fun path => path = "/var/fnordmetric"
  httpListen := fun _ => .ok ()
  statsdListen := fun _ => .ok ()
  evloopRun := .ok ()
  openDiskBackend := fun _ _ => .ok []

/-- The world `diskWorld` with an empty filesystem: the data directory does
not exist. -/
def missingDirWorld : World :=
  { diskWorld with fileExists := fun _ => false, fileIsDirectory := fun _ => false }

/-- The world `diskWorld` started with no `--datadir` flag. -/
def noDatadirWorld : World :=
  { diskWorld with
    flagIsSet := fun name => name = "storage_backend"
    flagGetString := fun name =>
      if name = "storage_backend" then .ok "disk"
      else .error ⟨"FlagError", "flag is not set: " ++ name⟩ }

/-- The world `diskWorld` where `/var/fnordmetric` is a directory the server
may not write to, so that opening the disk backend on it fails. -/
def readOnlyDirWorld : World :=
  { diskWorld with
    openDiskBackend := fun path _ =>
      .error ⟨kIOError, "directory " ++ path ++ " is not writable"⟩ }

/-- The world `diskWorld` where the HTTP port is already taken. -/
def portTakenWorld : World :=
  { diskWorld with httpListen := fun _ => .error ⟨kIOError, "bind() failed"⟩ }

/-! ## Basic facts about `Run` -/

theorem Run.mem_trace_bind {α β : Type} {m : Run α} {f : α → Run β} {ev : Event}
    (h : ev ∈ (m >>= f).trace) :
    ev ∈ m.trace ∨ ∃ a, m.result = .ok a ∧ ev ∈ (f a).trace := by
  cases hm : m.result with
  | error e => simp [bind, Run.andThen, hm] at h; exact Or.inl h
  | ok a =>
    simp [bind, Run.andThen, hm] at h
    rcases h with h | h
    · exact Or.inl h
    · exact Or.inr ⟨a, rfl, h⟩

theorem Run.bind_of_error {α β : Type} {m : Run α} {f : α → Run β} {e : Exception}
    (h : m.result = .error e) : m >>= f = ⟨m.trace, .error e⟩ := by
  simp [bind, Run.andThen, h]

theorem Run.bind_of_ok {α β : Type} {m : Run α} {f : α → Run β} {a : α}
    (h : m.result = .ok a) :
    m >>= f = ⟨m.trace ++ (f a).trace, (f a).result⟩ := by
  simp [bind, Run.andThen, h]

/-! ## Theorems: `makeMetricService` -/

theorem makeMetricService_trace (w : World) (backend_type : String)
    (sched : TaskScheduler) :
    ∀ ev ∈ (makeMetricService w backend_type sched).trace,
      ev.startsListener = false ∧ ev ≠ Event.printUsage := by
  intro ev hev
  unfold makeMetricService at hev
  split_ifs at hev with h1 h2 h3
  · simp [bind, Run.andThen, logInfo, Run.emit, MetricService.newWithInMemoryBackend,
      Run.call] at hev
    rcases hev with rfl | rfl <;> simp [Event.startsListener]
  · simp [Run.raise] at hev
  · cases hg : w.flagGetString "datadir" with
    | error e => simp [bind, Run.andThen, Run.ask, hg] at hev
    | ok datadir =>
      cases hx : w.fileExists datadir <;> cases hd : w.fileIsDirectory datadir <;>
        simp [bind, Run.andThen, Run.ask, Run.call, Run.raise, logInfo, Run.emit,
          MetricService.newWithDiskBackend, hg, hx, hd] at hev <;>
        (try rcases hev with rfl | rfl | rfl | rfl) <;>
        simp [Event.startsListener]
  · simp [Run.raise] at hev

/-- What `makeMetricService` does for the disk backend once the datadir flag
is set: the two guards, then the constructor, spelled out by the answers of
the world. -/
theorem makeMetricService_disk_run (w : World) (sched : TaskScheduler)
    (datadir : String) (hset : w.flagIsSet "datadir" = true)
    (hget : w.flagGetString "datadir" = .ok datadir) :
    makeMetricService w "disk" sched =
      if w.fileExists datadir = false then
        ⟨[Event.fileExists datadir],
          .error ⟨kIOError, "File " ++ datadir ++ " does not exist"⟩⟩
      else if w.fileIsDirectory datadir = false then
        ⟨[Event.fileExists datadir, Event.fileIsDirectory datadir],
          .error ⟨kIOError, "File " ++ datadir ++ " is not a directory"⟩⟩
      else
        ⟨[Event.fileExists datadir, Event.fileIsDirectory datadir,
            Event.logInfo "fnordmetric-server" ("Opening disk backend at " ++ datadir),
            Event.openDiskBackend datadir sched],
          (MetricService.newWithDiskBackend w datadir sched).result⟩ := by
  cases hx : w.fileExists datadir <;> cases hd : w.fileIsDirectory datadir <;>
    simp [makeMetricService, bind, Run.andThen, Run.ask, Run.call, Run.raise, logInfo,
      Run.emit, MetricService.newWithDiskBackend, hset, hget, hx, hd]

/-- C1, as stated, fails: with `--datadir /var/fnordmetric` where that path
exists and is a directory, but one the disk backend cannot be opened on,
`makeMetricService` still raises an `IOError`, the one of the constructor. -/
theorem makeMetricService_disk_existing_directory_raises :
    readOnlyDirWorld.flagIsSet "datadir" = true ∧
    readOnlyDirWorld.flagGetString "datadir" = .ok "/var/fnordmetric" ∧
    readOnlyDirWorld.fileExists "/var/fnordmetric" = true ∧
    readOnlyDirWorld.fileIsDirectory "/var/fnordmetric" = true ∧
    (makeMetricService readOnlyDirWorld "disk" server_pool).result =
      .error ⟨kIOError, "directory /var/fnordmetric is not writable"⟩ :=
  ⟨by decide, by simp [readOnlyDirWorld, diskWorld], by decide, by decide, by rfl⟩

/-- C1, amended: for backend type "disk" with the datadir flag set to a path,
(1) if the path does not exist `makeMetricService` raises the `IOError`
"File … does not exist" and (2) if it exists but is not a directory the
`IOError` "File … is not a directory", in both cases without calling the
constructor; (3) if it exists and is a directory, the constructor is called
with exactly that path and the given scheduler, and `makeMetricService`
returns its service or raises its exception; (4) so whenever the constructor
accepts that path, `makeMetricService` raises if and only if the path does not
exist or is not a directory, every exception it raises is an `IOError`, and
on an existing directory the disk-backed service for that path and scheduler
is returned. -/
theorem makeMetricService_disk_guards (w : World) (sched : TaskScheduler)
    (datadir : String) (hset : w.flagIsSet "datadir" = true)
    (hget : w.flagGetString "datadir" = .ok datadir) :
    (w.fileExists datadir = false →
      (makeMetricService w "disk" sched).result =
          .error ⟨kIOError, "File " ++ datadir ++ " does not exist"⟩ ∧
        ∀ path s, Event.openDiskBackend path s ∉
          (makeMetricService w "disk" sched).trace) ∧
    (w.fileExists datadir = true → w.fileIsDirectory datadir = false →
      (makeMetricService w "disk" sched).result =
          .error ⟨kIOError, "File " ++ datadir ++ " is not a directory"⟩ ∧
        ∀ path s, Event.openDiskBackend path s ∉
          (makeMetricService w "disk" sched).trace) ∧
    (w.fileExists datadir = true → w.fileIsDirectory datadir = true →
      (makeMetricService w "disk" sched).result =
          (MetricService.newWithDiskBackend w datadir sched).result ∧
        (∀ path s, Event.openDiskBackend path s ∈
            (makeMetricService w "disk" sched).trace → path = datadir ∧ s = sched) ∧
        Event.openDiskBackend datadir sched ∈
          (makeMetricService w "disk" sched).trace) ∧
    (∀ repository, w.openDiskBackend datadir sched = .ok repository →
      ((∃ e, (makeMetricService w "disk" sched).result = .error e) ↔
        (w.fileExists datadir = false ∨
          (w.fileExists datadir = true ∧ w.fileIsDirectory datadir = false))) ∧
      (∀ e, (makeMetricService w "disk" sched).result = .error e →
        e.typeName = kIOError) ∧
      (w.fileExists datadir = true → w.fileIsDirectory datadir = true →
        (makeMetricService w "disk" sched).result =
          .ok ⟨BackendKind.disk datadir sched, repository⟩)) := by
  have hrun := makeMetricService_disk_run w sched datadir hset hget
  refine ⟨?_, ?_, ?_, ?_⟩
  · intro hx
    simp [hrun, hx]
  · intro hx hd
    simp [hrun, hx, hd]
  · intro hx hd
    simp [hrun, hx, hd]
  · intro repository hopen
    have hnew : (MetricService.newWithDiskBackend w datadir sched).result =
        .ok ⟨BackendKind.disk datadir sched, repository⟩ := by
      simp [MetricService.newWithDiskBackend, Run.call, hopen]
    refine ⟨?_, ?_, ?_⟩
    · cases hx : w.fileExists datadir <;> cases hd : w.fileIsDirectory datadir <;>
        simp [hrun, hx, hd, hnew]
    · intro e he
      cases hx : w.fileExists datadir <;> cases hd : w.fileIsDirectory datadir <;>
        simp [hrun, hx, hd, hnew] at he <;> subst he <;> rfl
    · intro hx hd
      simp [hrun, hx, hd, hnew]

/-- Witness for C1, amended: with `--datadir /var/fnordmetric` on a machine
where that directory exists and the backend opens on it, the disk service for
that path and scheduler is returned; where the directory is missing, the
guard raises without calling the constructor. -/
theorem makeMetricService_disk_guards_witness :
    (diskWorld.flagIsSet "datadir" = true ∧
      diskWorld.flagGetString "datadir" = .ok "/var/fnordmetric" ∧
      diskWorld.openDiskBackend "/var/fnordmetric" server_pool = .ok [] ∧
      (makeMetricService diskWorld "disk" server_pool).result =
        .ok ⟨BackendKind.disk "/var/fnordmetric" server_pool, []⟩) ∧
    (missingDirWorld.fileExists "/var/fnordmetric" = false ∧
      (makeMetricService missingDirWorld "disk" server_pool).result =
        .error ⟨kIOError, "File /var/fnordmetric does not exist"⟩) :=
  ⟨⟨by decide, by simp [diskWorld], rfl,
      ((makeMetricService_disk_guards diskWorld server_pool "/var/fnordmetric"
        (by decide) (by simp [diskWorld])).2.2.2 [] rfl).2.2 (by decide) (by decide)⟩,
    ⟨by decide,
      ((makeMetricService_disk_guards missingDirWorld server_pool "/var/fnordmetric"
        (by decide) (by simp [missingDirWorld, diskWorld])).1 (by decide)).1⟩⟩

/-- C2: with the datadir flag unset and a backend type among "inmemory" and
"disk", `makeMetricService` fails exactly for "disk", and then with the usage
error about `--datadir`, raised before it has done anything (no filesystem
check, no event at all); for "inmemory" it returns the in-memory service in
every world, whatever the datadir flag and the filesystem are. -/
theorem makeMetricService_datadir_required_iff_disk (w : World)
    (sched : TaskScheduler) :
    (makeMetricService w "inmemory" sched).result = .ok ⟨BackendKind.inMemory, []⟩ ∧
    (w.flagIsSet "datadir" = false →
      ∀ backend_type : String, backend_type = "inmemory" ∨ backend_type = "disk" →
        ((∃ e, (makeMetricService w backend_type sched).result = .error e) ↔
            backend_type = "disk") ∧
        (backend_type = "disk" →
          (makeMetricService w backend_type sched).result =
              .error ⟨kUsageError,
                "the --datadir flag must be set when using the disk backend"⟩ ∧
            (makeMetricService w backend_type sched).trace = [] ∧
            ∀ ev ∈ (makeMetricService w backend_type sched).trace,
              ev.isFilesystemCheck = false)) := by
  have hmem : (makeMetricService w "inmemory" sched).result =
      .ok ⟨BackendKind.inMemory, []⟩ := by
    simp [makeMetricService, bind, Run.andThen, logInfo, Run.emit,
      MetricService.newWithInMemoryBackend, Run.call]
  have hdisk : makeMetricService w "disk" sched =
      (if !w.flagIsSet "datadir" then
        Run.raise kUsageError
          "the --datadir flag must be set when using the disk backend"
      else (makeMetricService w "disk" sched)) := by
    cases hs : w.flagIsSet "datadir" <;> simp [makeMetricService, hs]
  refine ⟨hmem, ?_⟩
  intro hunset backend_type hbt
  rw [hunset] at hdisk
  rcases hbt with rfl | rfl
  · refine ⟨?_, ?_⟩
    · simp [hmem]
    · intro h; exact absurd h (by decide)
  · refine ⟨?_, ?_⟩
    · rw [hdisk]; simp [Run.raise]
    · intro _
      rw [hdisk]; simp [Run.raise]

/-- Witness for C2: started with `--storage_backend disk` and no `--datadir`,
backend construction stops with the usage error. -/
theorem makeMetricService_datadir_required_iff_disk_witness :
    noDatadirWorld.flagIsSet "datadir" = false ∧
    (makeMetricService noDatadirWorld "disk" server_pool).result =
      .error ⟨kUsageError,
        "the --datadir flag must be set when using the disk backend"⟩ :=
  ⟨by decide,
    (((makeMetricService_datadir_required_iff_disk noDatadirWorld server_pool).2
      (by decide) "disk" (Or.inr rfl)).2 rfl).1⟩

/-- C3: every backend type other than exactly "inmemory" and exactly "disk"
is refused with the usage error "unknown backend type", without any event
and without a service, whatever the datadir flag and the filesystem are. -/
theorem makeMetricService_unknown_backend (w : World) (backend_type : String)
    (sched : TaskScheduler) (h1 : backend_type ≠ "inmemory")
    (h2 : backend_type ≠ "disk") :
    (makeMetricService w backend_type sched).result =
        .error ⟨kUsageError, "unknown backend type: " ++ backend_type⟩ ∧
      (makeMetricService w backend_type sched).trace = [] ∧
      ∀ svc, (makeMetricService w backend_type sched).result ≠ .ok svc := by
  simp [makeMetricService, h1, h2, Run.raise]

/-- Witness for C3: the empty string and the case variant "Disk" are refused
even where the data directory is in place. -/
theorem makeMetricService_unknown_backend_witness :
    (makeMetricService diskWorld "" server_pool).result =
        .error ⟨kUsageError, "unknown backend type: "⟩ ∧
    (makeMetricService diskWorld "Disk" server_pool).result =
        .error ⟨kUsageError, "unknown backend type: Disk"⟩ :=
  ⟨(makeMetricService_unknown_backend diskWorld "" server_pool
      (by decide) (by decide)).1,
    (makeMetricService_unknown_backend diskWorld "Disk" server_pool
      (by decide) (by decide)).1⟩

/-- C7, evaluated on the code: the help text of the `storage_backend` flag
lists "mysql" and "hbase", yet for both `makeMetricService` raises the
"unknown backend type" usage error, in every world and in particular where
the data directory exists. -/
theorem makeMetricService_rejects_mysql_hbase (w : World) (sched : TaskScheduler) :
    (makeMetricService w "mysql" sched).result =
        .error ⟨kUsageError, "unknown backend type: mysql"⟩ ∧
    (makeMetricService w "hbase" sched).result =
        .error ⟨kUsageError, "unknown backend type: hbase"⟩ := by
  constructor <;> simp [makeMetricService, Run.raise]

/-! ## Theorems: `main` -/

/-- The `try` block of `main` never prints the usage text itself. -/
theorem mainTryBody_no_usage (w : World) : Event.printUsage ∉ (mainTryBody w).trace := by
  intro h
  unfold mainTryBody at h
  rcases Run.mem_trace_bind h with h | ⟨backend_type, -, h⟩
  · simp [Run.ask] at h
  rcases Run.mem_trace_bind h with h | ⟨_, -, h⟩
  · exact (makeMetricService_trace w backend_type server_pool _ h).2 rfl
  rcases Run.mem_trace_bind h with h | ⟨http_port, -, h⟩
  · simp [Run.ask] at h
  rcases Run.mem_trace_bind h with h | ⟨_, -, h⟩
  · simp [logInfo, Run.emit] at h
  rcases Run.mem_trace_bind h with h | ⟨_, -, h⟩
  · simp [Run.call] at h
  rcases Run.mem_trace_bind h with h | ⟨_, -, h⟩
  · split_ifs at h
    · rcases Run.mem_trace_bind h with h | ⟨statsd_port, -, h⟩
      · simp [Run.ask] at h
      rcases Run.mem_trace_bind h with h | ⟨_, -, h⟩
      · simp [logInfo, Run.emit] at h
      · simp [Run.call] at h
    · simp [pure, Run.ret] at h
  · simp [Run.call] at h

/-- The shape of a run of `main` once the command line has been parsed and
`--help` was not given: the `try` block followed, if it raised, by the
handler. -/
theorem main_eq_tryCatch (w : World) (hparse : w.parseArgv = .ok ())
    (hhelp : w.flagIsSet "help" = false) :
    main w = Run.tryCatch (do mainTryBody w; pure 0) mainCatch := by
  simp [main, bind, Run.andThen, Run.ask, hparse, hhelp]

/-- C4: on every run of `main` in which backend construction raises, no event
of the run starts a listener or the event loop: neither the HTTP server's
listen, nor the StatsD server's listen, nor the event loop's run is
executed. -/
theorem main_no_listener_when_backend_fails (w : World) (backend_type : String)
    (e : Exception) (hget : w.flagGetString "storage_backend" = .ok backend_type)
    (hfail : (makeMetricService w backend_type server_pool).result = .error e) :
    ∀ ev ∈ (main w).trace, ev.startsListener = false := by
  have hbody : mainTryBody w =
      ⟨(makeMetricService w backend_type server_pool).trace, .error e⟩ := by
    unfold mainTryBody
    rw [Run.bind_of_ok (a := backend_type) (by simp [Run.ask, hget])]
    rw [Run.bind_of_error hfail]
    simp [Run.ask]
  intro ev hev
  cases hp : w.parseArgv with
  | error e0 => simp [main, bind, Run.andThen, Run.ask, hp] at hev
  | ok u =>
    cases hh : w.flagIsSet "help" with
    | true =>
      simp [main, bind, Run.andThen, Run.ask, hp, hh, printUsage, Run.emit, pure,
        Run.ret] at hev
      subst hev; rfl
    | false =>
      rw [main_eq_tryCatch w hp hh, hbody] at hev
      by_cases hu : e.typeName = kUsageError <;>
        simp [Run.tryCatch, bind, Run.andThen, mainCatch, Run.emit, printUsage, pure,
          Run.ret, hu] at hev
      · rcases hev with hev | rfl | rfl
        · exact (makeMetricService_trace w backend_type server_pool _ hev).1
        · rfl
        · rfl
      · rcases hev with hev | rfl
        · exact (makeMetricService_trace w backend_type server_pool _ hev).1
        · rfl

/-- Witness for C4: `--storage_backend disk --datadir /var/fnordmetric` where
the directory does not exist; backend construction raises the `IOError` and
the run contains no listen and no event-loop event. -/
theorem main_no_listener_when_backend_fails_witness :
    missingDirWorld.flagGetString "storage_backend" = .ok "disk" ∧
    (makeMetricService missingDirWorld "disk" server_pool).result =
      .error ⟨kIOError, "File /var/fnordmetric does not exist"⟩ ∧
    ∀ ev ∈ (main missingDirWorld).trace, ev.startsListener = false :=
  ⟨by simp [missingDirWorld, diskWorld], by rfl,
    main_no_listener_when_backend_fails missingDirWorld "disk"
      ⟨kIOError, "File /var/fnordmetric does not exist"⟩
      (by simp [missingDirWorld, diskWorld]) (by rfl)⟩

/-- C5: once the command line is parsed, `main` returns 0 under `--help`;
without `--help`, every exception raised in the `try` block (backend
construction, the listens, the event loop) makes `main` return 1, and the
usage text is printed exactly when the exception's type is the usage error;
and when no exception is raised `main` returns 0, never 1. -/
theorem main_exit_status (w : World) (hparse : w.parseArgv = .ok ()) :
    (w.flagIsSet "help" = true → (main w).result = .ok 0) ∧
    (w.flagIsSet "help" = false →
      (∀ e, (mainTryBody w).result = .error e →
        (main w).result = .ok 1 ∧
          (Event.printUsage ∈ (main w).trace ↔ e.typeName = kUsageError)) ∧
      ((mainTryBody w).result = .ok () → (main w).result = .ok 0)) := by
  refine ⟨?_, ?_⟩
  · intro hh
    simp [main, bind, Run.andThen, Run.ask, hparse, hh, printUsage, Run.emit, pure,
      Run.ret]
  · intro hh
    rw [main_eq_tryCatch w hparse hh]
    have hno := mainTryBody_no_usage w
    refine ⟨?_, ?_⟩
    · intro e he
      rw [Run.bind_of_error he]
      by_cases hu : e.typeName = kUsageError <;>
        simp [Run.tryCatch, bind, Run.andThen, mainCatch, Run.emit, printUsage, pure,
          Run.ret, hu, hno]
    · intro hok
      rw [Run.bind_of_ok hok]
      simp [Run.tryCatch, pure, Run.ret]

/-- Witness for C5: with the HTTP port already taken the listen raises an
`IOError`; `main` returns 1 and prints no usage text. -/
theorem main_exit_status_witness :
    portTakenWorld.parseArgv = .ok () ∧
    portTakenWorld.flagIsSet "help" = false ∧
    (mainTryBody portTakenWorld).result = .error ⟨kIOError, "bind() failed"⟩ ∧
    (main portTakenWorld).result = .ok 1 :=
  ⟨rfl, by decide, by rfl,
    (((main_exit_status portTakenWorld rfl).2 (by decide)).1
      ⟨kIOError, "bind() failed"⟩ (by rfl)).1⟩

/-! ## Theorems: the storage core -/

theorem Backend.series_appendSample_other (repository : List (String × List Sample))
    (key other : String) (sample : Sample) (hne : other ≠ key) :
    Backend.series (Backend.appendSample repository key sample) other =
      Backend.series repository other := by
  induction repository with
  | nil => simp [Backend.appendSample, Backend.series, Ne.symm hne]
  | cons entry rest ih =>
    obtain ⟨k, s⟩ := entry
    by_cases hk : k = key
    · subst hk
      simp [Backend.appendSample, Backend.series, Ne.symm hne]
    · by_cases ho : k = other
      · subst ho
        simp [Backend.appendSample, Backend.series, hk]
      · simp [Backend.appendSample, Backend.series, hk, ho, ih]

theorem Backend.query_sorted (repository : List (String × List Sample)) (key : String)
    (range : TimeRange) :
    List.Sorted (fun a b : Sample => a.timestamp ≤ b.timestamp)
      (Backend.query repository key range) := by
  unfold Backend.query
  haveI : IsTotal Sample (fun a b : Sample => a.timestamp ≤ b.timestamp) :=
    ⟨fun a b => Nat.le_total a.timestamp b.timestamp⟩
  haveI : IsTrans Sample (fun a b : Sample => a.timestamp ≤ b.timestamp) :=
    ⟨fun _ _ _ hab hbc => Nat.le_trans hab hbc⟩
  exact List.sorted_insertionSort _ _

/-- A write the backend rejects is logged and swallowed: `insertSample`
returns normally, the service is unchanged, and so is every query. -/
theorem MetricService.insertSample_rejected (svc : MetricService) (e : Exception)
    (now : Nat) (key : String) (value : ℚ) (labels : List (String × String)) :
    (svc.insertSample (.error e) now key value labels).result = .ok svc ∧
      (svc.insertSample (.error e) now key value labels).trace =
        [Event.logError "metricservice" e "insert failed"] := by
  simp [MetricService.insertSample, Backend.insert, Run.call]

/-- The call `insertSample` never propagates an exception to its caller. -/
theorem MetricService.insertSample_returns (svc : MetricService)
    (write : Except Exception Unit) (now : Nat) (key : String) (value : ℚ)
    (labels : List (String × String)) :
    ∃ svc', (svc.insertSample write now key value labels).result = .ok svc' := by
  cases write with
  | error e => exact ⟨svc, (MetricService.insertSample_rejected svc e now key value labels).1⟩
  | ok u =>
    exact ⟨⟨svc.backend,
        Backend.appendSample svc.repository key ⟨key, value, labels, now⟩⟩,
      by simp [MetricService.insertSample, Backend.insert, Run.ret]⟩

end FnordMetric
